import Mathlib

set_option maxHeartbeats 1000000
set_option maxRecDepth 8192

/-! Shallow embedding of the bedrock-llm repository: JSON values and the file
tools of file_tools.py, the OpenAI agent of llm_agent.py, and the Bedrock agent
of src/agents/bedrock_agent.py, together with theorems checking the
natural-language specification against these definitions. -/

/-- JSON values as produced and consumed by the tool layer. -/
inductive Json where
| null : Json
| bool : Bool → Json
| num : Int → Json
| str : String → Json
| arr : List Json → Json
| obj : List (String × Json) → Json

mutual

/-- Serialization of a JSON value, modelling json.dumps. -/
def Json.dumps : Json → String
| Json.null => "null"
| Json.bool b => if b then "true" else "false"
| Json.num n => toString n
| Json.str s => "\"" ++ s ++ "\""
| Json.arr xs => "[" ++ Json.dumpsArray xs ++ "]"
| Json.obj fields => "\x7b" ++ Json.dumpsFields fields ++ "\x7d"

/-- Serialization of the elements of a JSON array. -/
def Json.dumpsArray : List Json → String
| [] => ""
| [x] => Json.dumps x
| x :: y :: rest => Json.dumps x ++ ", " ++ Json.dumpsArray (y :: rest)

/-- Serialization of the fields of a JSON object. -/
def Json.dumpsFields : List (String × Json) → String
| [] => ""
| [kv] => "\"" ++ kv.1 ++ "\": " ++ Json.dumps kv.2
| kv :: p :: rest => "\"" ++ kv.1 ++ "\": " ++ Json.dumps kv.2 ++ ", " ++ Json.dumpsFields (p :: rest)

end

/-- Field lookup in a JSON object. -/
def Json.getField : Json → String → Option Json
| Json.obj fields, k => (fields.find? (fun p => p.1 == k)).map (fun p => p.2)
| _, _ => none

mutual

/-- The recursive helper find_key of FileTools.search_json: all occurrences of
a key at any nesting depth, with dotted paths for mapping keys and bracketed
indices for sequence elements. -/
def find_key (key : String) : Json → String → List (String × Json)
| Json.obj fields, path => find_keyFields key fields path
| Json.arr items, path => find_keyItems key items path 0
| _, _ => []

/-- The find_key recursion over the fields of a JSON object, in order. -/
def find_keyFields (key : String) : List (String × Json) → String → List (String × Json)
| [], _ => []
| kv :: rest, path =>
  let new_path := if path = "" then kv.1 else path ++ "." ++ kv.1
  (if kv.1 = key then [(new_path, kv.2)] else []) ++ find_key key kv.2 new_path
    ++ find_keyFields key rest path

/-- The find_key recursion over the items of a JSON array, with indices. -/
def find_keyItems (key : String) : List Json → String → Nat → List (String × Json)
| [], _, _ => []
| item :: rest, path, i =>
  find_key key item (path ++ "[" ++ toString i ++ "]") ++ find_keyItems key rest path (i + 1)

end

mutual

/-- Independent count of the occurrences of a key in a JSON value, at any
nesting depth, following the wording of the specification. -/
def countKey (key : String) : Json → Nat
| Json.obj fields => countKeyFields key fields
| Json.arr items => countKeyItems key items
| _ => 0

/-- The occurrence count over the fields of a JSON object. -/
def countKeyFields (key : String) : List (String × Json) → Nat
| [] => 0
| kv :: rest => (if kv.1 = key then 1 else 0) + countKey key kv.2 + countKeyFields key rest

/-- The occurrence count over the items of a JSON array. -/
def countKeyItems (key : String) : List Json → Nat
| [] => 0
| item :: rest => countKey key item + countKeyItems key rest

end

/-- A scalar cell of a loaded table (a pandas DataFrame entry). -/
inductive Cell where
| null : Cell
| bool : Bool → Cell
| num : Int → Cell
| str : String → Cell
deriving DecidableEq

/-- Embedding of a scalar cell into JSON. -/
def Cell.toJson : Cell → Json
| Cell.null => Json.null
| Cell.bool b => Json.bool b
| Cell.num n => Json.num n
| Cell.str s => Json.str s

/-- A loaded table: column names plus rows of cells (a pandas DataFrame). -/
structure Table where
  cols : List String
  rows : List (List Cell)

/-- The values of one column of a table, as df[c].tolist(). -/
def Table.colValues (t : Table) (c : String) : List Cell :=
  match t.cols.findIdx? (fun x => x == c) with
  | some i => t.rows.map (fun r => r.getD i Cell.null)
  | none => []

/-- A loaded Excel workbook: its sheets in order (pd.ExcelFile). -/
structure ExcelFile where
  sheets : List (String × Table)

/-- The file-provider backend seen by the tools: loading an Excel workbook, a
CSV table or a JSON document may fail (an exception message), and running a
pandas query over a table may fail. -/
structure FileSystem where
  excel : String → Except String ExcelFile
  csv : String → Except String Table
  jsonFile : String → Except String Json
  runQuery : Table → String → Except String Table

/-- Model of pd.read_excel restricted to one named sheet. -/
def readExcelSheet (fs : FileSystem) (file_path sheet : String) : Except String Table := do
  let xf ← fs.excel file_path
  match (xf.sheets.find? (fun p => p.1 == sheet)).map (fun p => p.2) with
  | some t => pure t
  | none => Except.error ("Worksheet named \x27" ++ sheet ++ "\x27 not found")

/-- Resolution of the sheet argument as in the tools: when absent, the first
sheet name of pd.ExcelFile is used; then the sheet is loaded. -/
def resolveExcelSheet (fs : FileSystem) (file_path : String) (sheet_name : Option String) :
    Except String (String × Table) := do
  let s ← match sheet_name with
    | some s => pure s
    | none => do
      let xf ← fs.excel file_path
      match xf.sheets.head? with
      | some p => pure p.1
      | none => Except.error "list index out of range"
  let t ← readExcelSheet fs file_path s
  pure (s, t)

namespace FileTools

/-- The error envelope built by the except branches of the file tools. -/
def errorEnvelope (e file_path : String) : Json :=
  Json.obj [("success", Json.bool false), ("error", Json.str e), ("file_path", Json.str file_path)]

/-- Body of FileTools.get_excel_column_values inside its try block. -/
def get_excel_column_values_core (fs : FileSystem) (file_path column_name : String)
    (sheet_name : Option String) (unique : Bool) : Except String Json := do
  let st ← resolveExcelSheet fs file_path sheet_name
  if column_name ∈ st.2.cols then
    let values := st.2.colValues column_name
    let values := if unique then values.eraseDups else values
    pure (Json.obj [("success", Json.bool true), ("file_path", Json.str file_path),
      ("sheet_name", Json.str st.1), ("column_name", Json.str column_name),
      ("num_values", Json.num (values.length : Int)),
      ("values", Json.arr (values.map Cell.toJson))])
  else
    pure (Json.obj [("success", Json.bool false),
      ("error", Json.str ("Column \x27" ++ column_name ++ "\x27 not found")),
      ("available_columns", Json.arr (st.2.cols.map Json.str))])

/-- FileTools.get_excel_column_values: the try body with its except handler. -/
def get_excel_column_values (fs : FileSystem) (file_path column_name : String)
    (sheet_name : Option String) (unique : Bool) : Json :=
  match get_excel_column_values_core fs file_path column_name sheet_name unique with
  | Except.ok j => j
  | Except.error e => errorEnvelope e file_path

/-- Body of FileTools.get_csv_column_values inside its try block. -/
def get_csv_column_values_core (fs : FileSystem) (file_path column_name : String)
    (unique : Bool) : Except String Json := do
  let df ← fs.csv file_path
  if column_name ∈ df.cols then
    let values := df.colValues column_name
    let values := if unique then values.eraseDups else values
    pure (Json.obj [("success", Json.bool true), ("file_path", Json.str file_path),
      ("column_name", Json.str column_name),
      ("num_values", Json.num (values.length : Int)),
      ("values", Json.arr (values.map Cell.toJson))])
  else
    pure (Json.obj [("success", Json.bool false),
      ("error", Json.str ("Column \x27" ++ column_name ++ "\x27 not found")),
      ("available_columns", Json.arr (df.cols.map Json.str))])

/-- FileTools.get_csv_column_values: the try body with its except handler. -/
def get_csv_column_values (fs : FileSystem) (file_path column_name : String)
    (unique : Bool) : Json :=
  match get_csv_column_values_core fs file_path column_name unique with
  | Except.ok j => j
  | Except.error e => errorEnvelope e file_path

/-- One row rendered as a record, as df.to_dict(orient=records). -/
def recordOf (cols : List String) (row : List Cell) : Json :=
  Json.obj (cols.zip (row.map Cell.toJson))

/-- Body of FileTools.query_excel inside its try block. -/
def query_excel_core (fs : FileSystem) (file_path query : String)
    (sheet_name : Option String) : Except String Json := do
  let st ← resolveExcelSheet fs file_path sheet_name
  let rdf ← fs.runQuery st.2 query
  pure (Json.obj [("success", Json.bool true), ("file_path", Json.str file_path),
    ("sheet_name", Json.str st.1), ("query", Json.str query),
    ("num_results", Json.num (rdf.rows.length : Int)),
    ("results", Json.arr (rdf.rows.map (recordOf rdf.cols)))])

/-- FileTools.query_excel: the try body with its except handler. -/
def query_excel (fs : FileSystem) (file_path query : String)
    (sheet_name : Option String) : Json :=
  match query_excel_core fs file_path query sheet_name with
  | Except.ok j => j
  | Except.error e => Json.obj [("success", Json.bool false), ("error", Json.str e),
      ("file_path", Json.str file_path), ("query", Json.str query)]

/-- FileTools.search_json: load the document, collect every occurrence of the
key with find_key, and wrap the results in a success envelope; any load
failure becomes an error envelope. -/
def search_json (fs : FileSystem) (file_path search_key : String) : Json :=
  match fs.jsonFile file_path with
  | Except.error e => errorEnvelope e file_path
  | Except.ok data =>
    let results := find_key search_key data ""
    Json.obj [("success", Json.bool true), ("file_path", Json.str file_path),
      ("search_key", Json.str search_key),
      ("num_occurrences", Json.num (results.length : Int)),
      ("results", Json.arr (results.map (fun pv =>
        Json.obj [("path", Json.str pv.1), ("value", pv.2)])))]

end FileTools

/-- The system preamble shared verbatim by both agents, with the bound file
list embedded at construction of the first turn. -/
def dopplerSystemPrompt (files : List String) : String :=
  "You are a medical data analysis assistant specializing in Doppler ultrasound studies. \nYou have access to Excel files containing Doppler study records from an S3 bucket.\n\nCONTEXT:\n- The data contains Doppler ultrasound examination records\n- This is medical diagnostic data that may include patient information, study dates, results, and findings\n- Data is from July-August 2025 period\n\nAvailable files: "
    ++ String.intercalate ", " files
    ++ "\n\nYOUR CAPABILITIES:\n- Read and analyze Excel files with multiple sheets\n- Filter and query data based on specific criteria\n- Extract statistics and summaries\n- Identify patterns and trends in the medical data\n\nINSTRUCTIONS:\n1. First, explore the data structure to understand what columns and information are available\n2. Use the appropriate tools to find the requested information\n3. Provide clear, accurate answers based on the actual data\n4. When analyzing medical data, be precise and professional\n5. If asked to calculate statistics or aggregations, explain your methodology\n6. Always specify which data you\x27re analyzing (e.g., \"Based on the 150 records in the file...\")\n\nIMPORTANT: Treat all data as confidential medical information. Focus on data analysis, not medical advice.\n"

/-- The semantics of the Python expression (x or d) on an optional string:
None and the empty string both fall back to the default. -/
def pyOr (c : Option String) (d : String) : String :=
  match c with
  | some s => if s = "" then d else s
  | none => d

/-- Rounding to 4 decimal places, as the round(x, 4) calls in both agents. -/
def roundTo4 (q : ℚ) : ℚ := ((round (q * 10000) : ℤ) : ℚ) / 10000

/-- The abstract implementations behind the dispatch of execute_function: the
FileTools methods reached by keyword splatting, each taking the bound keyword
arguments and returning a result envelope. -/
structure FT where
  read_excel : List (String × Json) → Json
  query_excel : List (String × Json) → Json
  get_excel_column_values : List (String × Json) → Json
  read_json : List (String × Json) → Json
  search_json : List (String × Json) → Json

/-- Python keyword-argument binding for a call f(**args) against a signature
of required (no default) and optional (defaulted) parameter names: an unknown
keyword or a missing required parameter raises a TypeError, modelled as an
error message. -/
def bindKwargs (fname : String) (required optional : List String)
    (args : List (String × Json)) : Except String (List (String × Json)) :=
  match args.find? (fun p => !(required.contains p.1) && !(optional.contains p.1)) with
  | some p => Except.error (fname ++ "() got an unexpected keyword argument \x27" ++ p.1 ++ "\x27")
  | none =>
    match required.find? (fun r => args.all (fun p => p.1 != r)) with
    | some r => Except.error (fname ++ "() missing 1 required positional argument: \x27" ++ r ++ "\x27")
    | none => Except.ok args

/-- The role of a conversation message in the OpenAI chat format. -/
inductive Role where
| system : Role
| user : Role
| assistant : Role
| tool : Role
deriving DecidableEq

/-- One tool call emitted by an assistant turn: invocation id, tool name and
parsed argument mapping. -/
structure ToolCall where
  id : String
  name : String
  args : List (String × Json)

/-- One entry of the OpenAI-style conversation history. -/
structure Msg where
  role : Role
  content : Option String
  tool_calls : List ToolCall
  tool_call_id : Option String

/-- A user message as appended by LLMAgent.chat. -/
def mkUserMsg (s : String) : Msg := ⟨Role.user, some s, [], none⟩

/-- The usage block of an OpenAI response. -/
structure Usage3 where
  prompt_tokens : Nat
  completion_tokens : Nat
  total_tokens : Nat

/-- One OpenAI chat-completion response: optional text, tool calls, usage. -/
structure ORsp where
  content : Option String
  tool_calls : List ToolCall
  usage : Option Usage3

/-- The model provider of the OpenAI agent: from the messages sent and whether
tool schemas were passed, a response. -/
def OProvider : Type := List Msg → Bool → ORsp

/-- A record of one provider request: the messages sent and whether the tool
schemas were passed along. -/
structure ChatCall where
  messages : List Msg
  toolsEnabled : Bool

/-- The mutable fields of an LLMAgent instance. -/
structure LLMAgentState where
  conversation_history : List Msg
  available_files : List String
  total_prompt_tokens : Nat
  total_completion_tokens : Nat
  total_tokens_used : Nat

/-- The cost and token snapshot returned by get_token_usage (OpenAI agent). -/
structure UsageSnapshot where
  prompt_tokens : Nat
  completion_tokens : Nat
  total_tokens : Nat
  estimated_cost_usd : ℚ
  input_cost_usd : ℚ
  output_cost_usd : ℚ

namespace LLMAgent

/-- LLMAgent.set_available_files: replaces the bound file list only. -/
def set_available_files (s : LLMAgentState) (files : List String) : LLMAgentState :=
  { s with available_files := files }

/-- LLMAgent.reset_conversation: clears the conversation history only. -/
def reset_conversation (s : LLMAgentState) : LLMAgentState :=
  { s with conversation_history := [] }

/-- The token tracking block of LLMAgent.chat: accumulate the usage reported
by a response, or leave the counters alone when none is reported. -/
def trackUsage (s : LLMAgentState) (u : Option Usage3) : LLMAgentState :=
  match u with
  | none => s
  | some u => { s with
      total_prompt_tokens := s.total_prompt_tokens + u.prompt_tokens,
      total_completion_tokens := s.total_completion_tokens + u.completion_tokens,
      total_tokens_used := s.total_tokens_used + u.total_tokens }

/-- The tool names dispatched by LLMAgent.execute_function. -/
def llmKnownNames : List String :=
  ["read_excel", "query_excel", "get_excel_column_values", "read_json",
   "search_json", "list_available_files"]

/-- Body of LLMAgent.execute_function inside its try block: dispatch on the
name, bind the keyword arguments against the Python signature, and invoke the
matching FileTools method. -/
def execute_function_core (ft : FT) (files : List String) (name : String)
    (args : List (String × Json)) : Except String Json :=
  if name = "read_excel" then do
    let b ← bindKwargs "read_excel" ["file_path"] ["sheet_name", "max_rows"] args
    pure (ft.read_excel b)
  else if name = "query_excel" then do
    let b ← bindKwargs "query_excel" ["file_path", "query"] ["sheet_name"] args
    pure (ft.query_excel b)
  else if name = "get_excel_column_values" then do
    let b ← bindKwargs "get_excel_column_values" ["file_path", "column_name"] ["sheet_name", "unique"] args
    pure (ft.get_excel_column_values b)
  else if name = "read_json" then do
    let b ← bindKwargs "read_json" ["file_path"] [] args
    pure (ft.read_json b)
  else if name = "search_json" then do
    let b ← bindKwargs "search_json" ["file_path", "search_key"] [] args
    pure (ft.search_json b)
  else if name = "list_available_files" then
    pure (Json.obj [("success", Json.bool true), ("files", Json.arr (files.map Json.str)),
      ("num_files", Json.num (files.length : Int))])
  else
    pure (Json.obj [("success", Json.bool false),
      ("error", Json.str ("Unknown function: " ++ name))])

/-- LLMAgent.execute_function: the dispatch with its except handler, always
returning a serialized envelope. -/
def execute_function (ft : FT) (files : List String) (name : String)
    (args : List (String × Json)) : String :=
  match execute_function_core ft files name args with
  | Except.ok j => j.dumps
  | Except.error e => (Json.obj [("success", Json.bool false), ("error", Json.str e)]).dumps

/-- The assistant message appended to the history from a response. -/
def assistantMsgOf (r : ORsp) : Msg := ⟨Role.assistant, r.content, r.tool_calls, none⟩

/-- The tool-result messages appended for the tool calls of one assistant
turn, in emission order, each carrying the invocation id. -/
def toolResultMsgs (exec : String → List (String × Json) → String)
    (tcs : List ToolCall) : List Msg :=
  tcs.map (fun tc => ⟨Role.tool, some (exec tc.name tc.args), [], some tc.id⟩)

/-- The state after one tool-dispatching round: usage tracked, the assistant
turn appended, then one tool-result turn per tool call appended in order. -/
def toolStepState (exec : String → List (String × Json) → String)
    (s : LLMAgentState) (r : ORsp) : LLMAgentState :=
  let s1 := trackUsage s r.usage
  let s2 := { s1 with conversation_history := s1.conversation_history ++ [assistantMsgOf r] }
  { s2 with conversation_history := s2.conversation_history ++ toolResultMsgs exec r.tool_calls }

/-- The while loop of LLMAgent.chat with the remaining iteration budget as
fuel, followed by the final no-tools call; returns the answer, the final
state, and the trace of provider requests made. -/
def chatLoop (provider : OProvider) (exec : String → List (String × Json) → String) :
    LLMAgentState → Nat → String × LLMAgentState × List ChatCall
| s, 0 =>
  let r := provider s.conversation_history false
  let s1 := trackUsage s r.usage
  (pyOr r.content "I\x27ve analyzed the data but couldn\x27t formulate a final answer.",
    s1, [⟨s.conversation_history, false⟩])
| s, n + 1 =>
  let r := provider s.conversation_history true
  let s1 := trackUsage s r.usage
  let s2 := { s1 with conversation_history := s1.conversation_history ++ [assistantMsgOf r] }
  if r.tool_calls.isEmpty then
    (pyOr r.content "I couldn\x27t find an answer to your question.",
      s2, [⟨s.conversation_history, true⟩])
  else
    let out := chatLoop provider exec (toolStepState exec s r) n
    (out.1, out.2.1, ⟨s.conversation_history, true⟩ :: out.2.2)

/-- The seeding step of LLMAgent.chat: the system preamble is appended only
when the conversation history is empty (the first interaction), then the user
message is appended. -/
def seedState (s : LLMAgentState) (user_message : String) : LLMAgentState :=
  let s0 := if s.conversation_history.isEmpty then
      { s with conversation_history :=
          [⟨Role.system, some (dopplerSystemPrompt s.available_files), [], none⟩] }
    else s
  { s0 with conversation_history := s0.conversation_history ++ [mkUserMsg user_message] }

/-- LLMAgent.chat: seed the system preamble on the first interaction, append
the user message, then run the tool-calling loop. -/
def chat (provider : OProvider) (exec : String → List (String × Json) → String)
    (s : LLMAgentState) (user_message : String) (max_iterations : Nat) :
    String × LLMAgentState × List ChatCall :=
  chatLoop provider exec (seedState s user_message) max_iterations

/-- LLMAgent.get_token_usage with the fixed gpt-4o-mini rates. -/
def get_token_usage (s : LLMAgentState) : UsageSnapshot :=
  let input_cost : ℚ := ((s.total_prompt_tokens : ℚ) / 1000000) * 0.150
  let output_cost : ℚ := ((s.total_completion_tokens : ℚ) / 1000000) * 0.600
  let total_cost := input_cost + output_cost
  ⟨s.total_prompt_tokens, s.total_completion_tokens, s.total_tokens_used,
    roundTo4 total_cost, roundTo4 input_cost, roundTo4 output_cost⟩

end LLMAgent

/-- One content block of a Bedrock Converse message. -/
inductive BBlock where
| text : String → BBlock
| toolUse : String → String → List (String × Json) → BBlock
| toolResult : String → String → BBlock

/-- One message of the Bedrock Converse API. -/
structure BMsg where
  role : Role
  content : List BBlock

/-- One Bedrock Converse response: optional usage, the output message, and the
stop reason. -/
structure BRsp where
  usage : Option (Nat × Nat)
  message : BMsg
  stopReason : String

/-- The model provider of the Bedrock agent: from the messages sent and the
optional system preamble, a response; the tool configuration is always
attached by the code. -/
def BProvider : Type := List BMsg → Option String → BRsp

/-- A record of one Bedrock provider request: the messages sent, the system
preamble passed, and whether the tool configuration was attached. -/
structure BCall where
  messages : List BMsg
  system : Option String
  toolsEnabled : Bool

/-- The mutable fields of a BedrockAgent instance. -/
structure BedrockAgentState where
  conversation_history : List BMsg
  available_files : List String
  total_input_tokens : Nat
  total_output_tokens : Nat

/-- The cost and token snapshot returned by get_token_usage (Bedrock agent). -/
structure BUsageSnapshot where
  input_tokens : Nat
  output_tokens : Nat
  total_tokens : Nat
  estimated_cost_usd : ℚ
  input_cost_usd : ℚ
  output_cost_usd : ℚ

namespace BedrockAgent

/-- BedrockAgent.set_available_files: replaces the bound file list only. -/
def set_available_files (s : BedrockAgentState) (files : List String) : BedrockAgentState :=
  { s with available_files := files }

/-- BedrockAgent.reset_conversation: clears the conversation history only. -/
def reset_conversation (s : BedrockAgentState) : BedrockAgentState :=
  { s with conversation_history := [] }

/-- The token tracking block of BedrockAgent.chat. -/
def trackUsage (s : BedrockAgentState) (u : Option (Nat × Nat)) : BedrockAgentState :=
  match u with
  | none => s
  | some u => { s with
      total_input_tokens := s.total_input_tokens + u.1,
      total_output_tokens := s.total_output_tokens + u.2 }

/-- The tool names dispatched by BedrockAgent.execute_function. -/
def bedrockKnownNames : List String :=
  ["read_excel", "query_excel", "get_excel_column_values", "list_available_files"]

/-- Body of BedrockAgent.execute_function inside its try block. -/
def execute_function_core (ft : FT) (files : List String) (name : String)
    (args : List (String × Json)) : Except String Json :=
  if name = "read_excel" then do
    let b ← bindKwargs "read_excel" ["file_path"] ["sheet_name", "max_rows"] args
    pure (ft.read_excel b)
  else if name = "query_excel" then do
    let b ← bindKwargs "query_excel" ["file_path", "query"] ["sheet_name"] args
    pure (ft.query_excel b)
  else if name = "get_excel_column_values" then do
    let b ← bindKwargs "get_excel_column_values" ["file_path", "column_name"] ["sheet_name", "unique"] args
    pure (ft.get_excel_column_values b)
  else if name = "list_available_files" then
    pure (Json.obj [("success", Json.bool true), ("files", Json.arr (files.map Json.str)),
      ("num_files", Json.num (files.length : Int))])
  else
    pure (Json.obj [("success", Json.bool false),
      ("error", Json.str ("Unknown function: " ++ name))])

/-- BedrockAgent.execute_function: the dispatch with its except handler. -/
def execute_function (ft : FT) (files : List String) (name : String)
    (args : List (String × Json)) : String :=
  match execute_function_core ft files name args with
  | Except.ok j => j.dumps
  | Except.error e => (Json.obj [("success", Json.bool false), ("error", Json.str e)]).dumps

/-- The last text block of a content list, as the for loop that overwrites
text_response for every text block. -/
def lastText (blocks : List BBlock) : String :=
  blocks.foldl (fun acc b => match b with
    | BBlock.text s => s
    | _ => acc) ""

/-- The toolUse blocks of a content list, in order: id, name and input. -/
def toolUses (blocks : List BBlock) : List (String × String × List (String × Json)) :=
  blocks.filterMap (fun b => match b with
    | BBlock.toolUse id name input => some (id, name, input)
    | _ => none)

/-- The toolResult blocks collected from the toolUse blocks of one assistant
turn, in order, each carrying the toolUseId of its call. -/
def toolResultsOf (exec : String → List (String × Json) → String)
    (blocks : List BBlock) : List BBlock :=
  blocks.filterMap (fun b => match b with
    | BBlock.toolUse id name input => some (BBlock.toolResult id (exec name input))
    | _ => none)

/-- The while loop of BedrockAgent.chat with the remaining iteration budget as
fuel; when the budget is exhausted the fixed continuation message is returned
with no further provider call. -/
def chatLoop (provider : BProvider) (exec : String → List (String × Json) → String)
    (system : Option String) :
    List BMsg → BedrockAgentState → Nat → String × BedrockAgentState × List BCall
| _, s, 0 =>
  ("I\x27ve made multiple tool calls but need to continue. Please ask your question again or rephrase it.",
    s, [])
| messages, s, n + 1 =>
  let r := provider messages system
  let s1 := trackUsage s r.usage
  let messages1 := messages ++ [r.message]
  let call : BCall := ⟨messages, system, true⟩
  if r.stopReason = "end_turn" then
    let t := lastText r.message.content
    (if t = "" then "I couldn\x27t generate a response." else t, s1, [call])
  else if r.stopReason = "tool_use" then
    let messages2 := messages1 ++ [⟨Role.user, toolResultsOf exec r.message.content⟩]
    let out := chatLoop provider exec system messages2 s1 n
    (out.1, out.2.1, call :: out.2.2)
  else if r.stopReason = "max_tokens" then
    let t := lastText r.message.content
    (if t = "" then "Response was cut off due to length. Please ask a more specific question." else t,
      s1, [call])
  else
    ("Conversation stopped: " ++ r.stopReason, s1, [call])

/-- BedrockAgent.chat: the system preamble is built from the current file
binding whenever the stored conversation history is empty (the code never
appends to that history), the message list starts fresh with the user
question, and the loop runs with the iteration budget. -/
def chat (provider : BProvider) (exec : String → List (String × Json) → String)
    (s : BedrockAgentState) (user_message : String) (max_iterations : Nat) :
    String × BedrockAgentState × List BCall :=
  let system : Option String :=
    if s.conversation_history.isEmpty then some (dopplerSystemPrompt s.available_files) else none
  let messages : List BMsg := [⟨Role.user, [BBlock.text user_message]⟩]
  chatLoop provider exec system messages s max_iterations

/-- BedrockAgent.get_token_usage with the fixed Cohere Command R+ rates. -/
def get_token_usage (s : BedrockAgentState) : BUsageSnapshot :=
  let input_cost : ℚ := ((s.total_input_tokens : ℚ) / 1000000) * 3.00
  let output_cost : ℚ := ((s.total_output_tokens : ℚ) / 1000000) * 15.00
  let total_cost := input_cost + output_cost
  ⟨s.total_input_tokens, s.total_output_tokens, s.total_input_tokens + s.total_output_tokens,
    roundTo4 total_cost, roundTo4 input_cost, roundTo4 output_cost⟩

end BedrockAgent

/-- Trivial FileTools implementations for instantiating the dispatch layer at
concrete inputs. -/
def ft0 : FT :=
  ⟨fun _ => Json.null, fun _ => Json.null, fun _ => Json.null,
   fun _ => Json.null, fun _ => Json.null⟩

/-- The nested document of the search test of the specification. -/
def c6doc : Json :=
  Json.obj [("a", Json.obj [("b", Json.obj [("key", Json.num 1)])]),
            ("list", Json.arr [Json.obj [("key", Json.num 2)]])]

/-- A concrete file-provider backend with one workbook, one CSV table and one
JSON document; queries return the table unchanged. -/
def fs0 : FileSystem where
  excel := fun p => if p = "t.xlsx" then
      Except.ok ⟨[("Sheet1", ⟨["x"], [[Cell.num 1], [Cell.num 2]]⟩)]⟩
    else Except.error ("No such file or directory: " ++ p)
  csv := fun p => if p = "t.csv" then Except.ok ⟨["x"], [[Cell.num 1]]⟩
    else Except.error ("No such file or directory: " ++ p)
  jsonFile := fun p => if p = "data.json" then Except.ok c6doc
    else Except.error ("No such file or directory: " ++ p)
  runQuery := fun df _ => Except.ok df

/-- A fresh OpenAI agent state with no files bound. -/
def llmState0 : LLMAgentState := ⟨[], [], 0, 0, 0⟩

/-- A fresh Bedrock agent state with a given file binding. -/
def bState (files : List String) : BedrockAgentState := ⟨[], files, 0, 0⟩

/-- A tool executor returning a fixed serialized envelope. -/
def exec0 : String → List (String × Json) → String := fun _ _ => "r"

/-- An OpenAI provider that requests one tool call on every request. -/
def pToolO : OProvider := fun _ _ => ⟨some "t", [⟨"id1", "read_excel", []⟩], none⟩

/-- A Bedrock provider that requests one tool call on every request. -/
def pToolB : BProvider := fun _ _ =>
  ⟨none, ⟨Role.assistant, [BBlock.toolUse "id1" "read_excel" []]⟩, "tool_use"⟩

/-- A Bedrock provider that requests two tool calls on the first request and
ends the turn on any later request. -/
def pTwoB : BProvider := fun msgs _ =>
  if msgs.length == 1 then
    ⟨none, ⟨Role.assistant, [BBlock.toolUse "id1" "read_excel" [],
      BBlock.toolUse "id2" "query_excel" []]⟩, "tool_use"⟩
  else ⟨none, ⟨Role.assistant, [BBlock.text "done"]⟩, "end_turn"⟩

/-- A Bedrock provider that always ends the turn with a text answer. -/
def pEndB : BProvider := fun _ _ => ⟨none, ⟨Role.assistant, [BBlock.text "ok"]⟩, "end_turn"⟩

/-- The name, required parameters and defaulted parameters of every FileTools
method reached by keyword splatting from LLMAgent.execute_function. -/
def llmSignatures : List (String × List String × List String) :=
  [("read_excel", ["file_path"], ["sheet_name", "max_rows"]),
   ("query_excel", ["file_path", "query"], ["sheet_name"]),
   ("get_excel_column_values", ["file_path", "column_name"], ["sheet_name", "unique"]),
   ("read_json", ["file_path"], []),
   ("search_json", ["file_path", "search_key"], [])]

/-- The name, required parameters and defaulted parameters of every FileTools
method reached by keyword splatting from BedrockAgent.execute_function. -/
def bedrockSignatures : List (String × List String × List String) :=
  [("read_excel", ["file_path"], ["sheet_name", "max_rows"]),
   ("query_excel", ["file_path", "query"], ["sheet_name"]),
   ("get_excel_column_values", ["file_path", "column_name"], ["sheet_name", "unique"])]

theorem llm_trackUsage_history (s : LLMAgentState) (u : Option Usage3) :
    (LLMAgent.trackUsage s u).conversation_history = s.conversation_history := by
  cases u <;> rfl

theorem llm_trackUsage_files (s : LLMAgentState) (u : Option Usage3) :
    (LLMAgent.trackUsage s u).available_files = s.available_files := by
  cases u <;> rfl

theorem llm_toolStepState_history (e : String → List (String × Json) → String)
    (s : LLMAgentState) (r : ORsp) :
    (LLMAgent.toolStepState e s r).conversation_history =
      s.conversation_history ++ [LLMAgent.assistantMsgOf r] ++ LLMAgent.toolResultMsgs e r.tool_calls := by
  simp [LLMAgent.toolStepState, llm_trackUsage_history]

theorem llm_chatLoop_trace_head (p : OProvider) (e : String → List (String × Json) → String)
    (s : LLMAgentState) (n : Nat) :
    ((LLMAgent.chatLoop p e s n).2.2).head?.map ChatCall.messages = some s.conversation_history := by
  cases n with
  | zero => simp [LLMAgent.chatLoop]
  | succ n =>
    simp only [LLMAgent.chatLoop]
    split <;> simp

theorem llm_chatLoop_trace_ne_nil (p : OProvider) (e : String → List (String × Json) → String)
    (s : LLMAgentState) (n : Nat) :
    (LLMAgent.chatLoop p e s n).2.2 ≠ [] := by
  cases n with
  | zero => simp [LLMAgent.chatLoop]
  | succ n =>
    simp only [LLMAgent.chatLoop]
    split <;> simp

theorem llm_chatLoop_trace_prefix (p : OProvider) (e : String → List (String × Json) → String) :
    ∀ (n : Nat) (s : LLMAgentState), ∀ c ∈ (LLMAgent.chatLoop p e s n).2.2,
      ∃ ext, c.messages = s.conversation_history ++ ext := by
  intro n
  induction n with
  | zero =>
    intro s c hc
    simp [LLMAgent.chatLoop] at hc
    subst hc
    exact ⟨[], by simp⟩
  | succ n ih =>
    intro s c hc
    simp only [LLMAgent.chatLoop] at hc
    split at hc
    · simp at hc
      subst hc
      exact ⟨[], by simp⟩
    · simp only [List.mem_cons] at hc
      rcases hc with rfl | hc
      · exact ⟨[], by simp⟩
      · obtain ⟨ext, hext⟩ := ih _ c hc
        rw [llm_toolStepState_history] at hext
        exact ⟨[LLMAgent.assistantMsgOf (p s.conversation_history true)] ++
          LLMAgent.toolResultMsgs e (p s.conversation_history true).tool_calls ++ ext, by
            rw [hext]; simp⟩

theorem llm_chatLoop_always_tools (p : OProvider) (e : String → List (String × Json) → String)
    (H : ∀ hist, ((p hist true).tool_calls).isEmpty = false) :
    ∀ (n : Nat) (s : LLMAgentState),
      ∃ hist, (LLMAgent.chatLoop p e s n).2.2.length = n + 1 ∧
        (LLMAgent.chatLoop p e s n).2.2.getLast? = some ⟨hist, false⟩ ∧
        (LLMAgent.chatLoop p e s n).1 =
          pyOr (p hist false).content
            "I\x27ve analyzed the data but couldn\x27t formulate a final answer." := by
  intro n
  induction n with
  | zero =>
    intro s
    exact ⟨s.conversation_history, by simp [LLMAgent.chatLoop], by simp [LLMAgent.chatLoop],
      by simp [LLMAgent.chatLoop]⟩
  | succ n ih =>
    intro s
    obtain ⟨hist, h1, h2, h3⟩ := ih (LLMAgent.toolStepState e s (p s.conversation_history true))
    have hne := llm_chatLoop_trace_ne_nil p e (LLMAgent.toolStepState e s (p s.conversation_history true)) n
    obtain ⟨a, as, hcons⟩ := List.exists_cons_of_ne_nil hne
    refine ⟨hist, ?_, ?_, ?_⟩
    · simp only [LLMAgent.chatLoop, H, Bool.false_eq_true, if_false]
      simp [h1]
    · simp only [LLMAgent.chatLoop, H, Bool.false_eq_true, if_false]
      rw [hcons] at h2 ⊢
      rw [List.getLast?_cons_cons]
      exact h2
    · simp only [LLMAgent.chatLoop, H, Bool.false_eq_true, if_false]
      exact h3

theorem b_trackUsage_history (s : BedrockAgentState) (u : Option (Nat × Nat)) :
    (BedrockAgent.trackUsage s u).conversation_history = s.conversation_history := by
  cases u <;> rfl

theorem b_chatLoop_state_history (p : BProvider) (e : String → List (String × Json) → String)
    (sys : Option String) :
    ∀ (n : Nat) (msgs : List BMsg) (s : BedrockAgentState),
      (BedrockAgent.chatLoop p e sys msgs s n).2.1.conversation_history = s.conversation_history := by
  intro n
  induction n with
  | zero => intro msgs s; rfl
  | succ n ih =>
    intro msgs s
    simp only [BedrockAgent.chatLoop]
    split
    · simp [b_trackUsage_history]
    · split
      · simp [ih, b_trackUsage_history]
      · split
        · simp [b_trackUsage_history]
        · simp [b_trackUsage_history]

theorem b_chatLoop_calls (p : BProvider) (e : String → List (String × Json) → String)
    (sys : Option String) :
    ∀ (n : Nat) (msgs : List BMsg) (s : BedrockAgentState),
      ∀ c ∈ (BedrockAgent.chatLoop p e sys msgs s n).2.2, c.system = sys ∧ c.toolsEnabled = true := by
  intro n
  induction n with
  | zero => intro msgs s c hc; simp [BedrockAgent.chatLoop] at hc
  | succ n ih =>
    intro msgs s c hc
    simp only [BedrockAgent.chatLoop] at hc
    split at hc
    · simp at hc; subst hc; exact ⟨rfl, rfl⟩
    · split at hc
      · simp only [List.mem_cons] at hc
        rcases hc with rfl | hc
        · exact ⟨rfl, rfl⟩
        · exact ih _ _ c hc
      · split at hc
        · simp at hc; subst hc; exact ⟨rfl, rfl⟩
        · simp at hc; subst hc; exact ⟨rfl, rfl⟩

theorem b_chatLoop_trace_head (p : BProvider) (e : String → List (String × Json) → String)
    (sys : Option String) (msgs : List BMsg) (s : BedrockAgentState) (n : Nat) :
    (BedrockAgent.chatLoop p e sys msgs s (n + 1)).2.2.head? = some ⟨msgs, sys, true⟩ := by
  simp only [BedrockAgent.chatLoop]
  split
  · rfl
  · split
    · rfl
    · split
      · rfl
      · rfl

theorem b_chatLoop_always_tools (p : BProvider) (e : String → List (String × Json) → String)
    (sys : Option String) (H : ∀ msgs sys2, (p msgs sys2).stopReason = "tool_use") :
    ∀ (n : Nat) (msgs : List BMsg) (s : BedrockAgentState),
      (BedrockAgent.chatLoop p e sys msgs s n).2.2.length = n ∧
      (BedrockAgent.chatLoop p e sys msgs s n).1 =
        "I\x27ve made multiple tool calls but need to continue. Please ask your question again or rephrase it." := by
  intro n
  induction n with
  | zero => intro msgs s; exact ⟨rfl, rfl⟩
  | succ n ih =>
    intro msgs s
    simp only [BedrockAgent.chatLoop, H]
    rw [if_pos trivial]
    constructor
    · simp [(ih _ _).1]
    · simp [(ih _ _).2]

theorem toolResultsOf_eq_map (e : String → List (String × Json) → String) (blocks : List BBlock) :
    BedrockAgent.toolResultsOf e blocks =
      (BedrockAgent.toolUses blocks).map (fun t => BBlock.toolResult t.1 (e t.2.1 t.2.2)) := by
  induction blocks with
  | nil => rfl
  | cons b rest ih =>
    cases b <;> simpa [BedrockAgent.toolResultsOf, BedrockAgent.toolUses, List.filterMap_cons]
      using ih

mutual

theorem find_key_length (key : String) : (j : Json) → (path : String) →
    (find_key key j path).length = countKey key j
| Json.null, _ => rfl
| Json.bool _, _ => rfl
| Json.num _, _ => rfl
| Json.str _, _ => rfl
| Json.obj fields, path => by
  simpa [find_key, countKey] using find_keyFields_length key fields path
| Json.arr items, path => by
  simpa [find_key, countKey] using find_keyItems_length key items path 0

theorem find_keyFields_length (key : String) : (fields : List (String × Json)) → (path : String) →
    (find_keyFields key fields path).length = countKeyFields key fields
| [], _ => rfl
| kv :: rest, path => by
  by_cases h : kv.1 = key <;>
    simp [find_keyFields, countKeyFields, h, find_key_length key kv.2,
      find_keyFields_length key rest path, Nat.add_assoc, Nat.add_comm, Nat.add_left_comm]

theorem find_keyItems_length (key : String) : (items : List Json) → (path : String) → (i : Nat) →
    (find_keyItems key items path i).length = countKeyItems key items
| [], _, _ => rfl
| item :: rest, path, i => by
  simp [find_keyItems, countKeyItems, find_key_length key item,
    find_keyItems_length key rest path (i + 1)]

end

theorem except_bind_ok {α β ε : Type} (a : α) (f : α → Except ε β) :
    (Except.ok a : Except ε α) >>= f = f a := rfl

theorem except_bind_err {α β ε : Type} (e : ε) (f : α → Except ε β) :
    (Except.error e : Except ε α) >>= f = Except.error e := rfl

theorem except_pure_eq {α ε : Type} (a : α) : (pure a : Except ε α) = Except.ok a := rfl

/-- Claim C9: reset_conversation empties the conversation transcript and
changes nothing else — the accumulated token counters and the bound file
list are unchanged by reset, in both agent variants. -/
theorem C9_reset_clears_only_history (s : LLMAgentState) (sB : BedrockAgentState) :
    (LLMAgent.reset_conversation s).conversation_history = [] ∧
    (LLMAgent.reset_conversation s).available_files = s.available_files ∧
    (LLMAgent.reset_conversation s).total_prompt_tokens = s.total_prompt_tokens ∧
    (LLMAgent.reset_conversation s).total_completion_tokens = s.total_completion_tokens ∧
    (LLMAgent.reset_conversation s).total_tokens_used = s.total_tokens_used ∧
    (BedrockAgent.reset_conversation sB).conversation_history = [] ∧
    (BedrockAgent.reset_conversation sB).available_files = sB.available_files ∧
    (BedrockAgent.reset_conversation sB).total_input_tokens = sB.total_input_tokens ∧
    (BedrockAgent.reset_conversation sB).total_output_tokens = sB.total_output_tokens :=
  ⟨rfl, rfl, rfl, rfl, rfl, rfl, rfl, rfl, rfl⟩

/-- Claim C4: recording provider usage (100,50) and then (200,100) yields
accumulated totals 300 input, 150 output, 450 total in both agents, and for
every accumulated state the reported estimated cost is the per-million-token
formula at the fixed per-model rates, rounded to 4 decimal places. -/
theorem C4_usage_accounting :
    ((LLMAgent.trackUsage (LLMAgent.trackUsage llmState0 (some ⟨100, 50, 150⟩))
        (some ⟨200, 100, 300⟩)).total_prompt_tokens = 300 ∧
      (LLMAgent.trackUsage (LLMAgent.trackUsage llmState0 (some ⟨100, 50, 150⟩))
        (some ⟨200, 100, 300⟩)).total_completion_tokens = 150 ∧
      (LLMAgent.trackUsage (LLMAgent.trackUsage llmState0 (some ⟨100, 50, 150⟩))
        (some ⟨200, 100, 300⟩)).total_tokens_used = 450) ∧
    ((BedrockAgent.trackUsage (BedrockAgent.trackUsage (bState []) (some (100, 50)))
        (some (200, 100))).total_input_tokens = 300 ∧
      (BedrockAgent.trackUsage (BedrockAgent.trackUsage (bState []) (some (100, 50)))
        (some (200, 100))).total_output_tokens = 150 ∧
      (BedrockAgent.get_token_usage (BedrockAgent.trackUsage
        (BedrockAgent.trackUsage (bState []) (some (100, 50))) (some (200, 100)))).total_tokens = 450) ∧
    (∀ s : LLMAgentState, (LLMAgent.get_token_usage s).estimated_cost_usd =
      roundTo4 (((s.total_prompt_tokens : ℚ) / 1000000) * 0.150 +
        ((s.total_completion_tokens : ℚ) / 1000000) * 0.600)) ∧
    (∀ s : BedrockAgentState, (BedrockAgent.get_token_usage s).estimated_cost_usd =
      roundTo4 (((s.total_input_tokens : ℚ) / 1000000) * 3.00 +
        ((s.total_output_tokens : ℚ) / 1000000) * 15.00)) :=
  ⟨⟨rfl, rfl, rfl⟩, ⟨rfl, rfl, rfl⟩, fun _ => rfl, fun _ => rfl⟩

/-- Claim C6: search_json returns one path-value entry per occurrence of the
search key at any nesting depth (the result count always equals the
independent occurrence count), and on the nested document it returns exactly
the two results with dotted mapping paths and bracketed sequence indices. -/
theorem C6_search_json :
    (∀ (key : String) (j : Json) (path : String),
      (find_key key j path).length = countKey key j) ∧
    FileTools.search_json fs0 "data.json" "key" =
      Json.obj [("success", Json.bool true), ("file_path", Json.str "data.json"),
        ("search_key", Json.str "key"), ("num_occurrences", Json.num 2),
        ("results", Json.arr [
          Json.obj [("path", Json.str "a.b.key"), ("value", Json.num 1)],
          Json.obj [("path", Json.str "list[0].key"), ("value", Json.num 2)]])] :=
  ⟨fun key j path => find_key_length key j path, rfl⟩

/-- Claim C5: for every table file that loads successfully and every column
name absent from the loaded sheet, get_excel_column_values and
get_csv_column_values return a success:false envelope together with an
available_columns list equal to the actual column names of the sheet. -/
theorem C5_missing_column (fs : FileSystem) (p1 p2 column_name : String)
    (sheet_name : Option String) (unique1 unique2 : Bool)
    (sh : String) (df dfc : Table)
    (hx : resolveExcelSheet fs p1 sheet_name = Except.ok (sh, df))
    (hcol : column_name ∉ df.cols)
    (hc : fs.csv p2 = Except.ok dfc)
    (hcol2 : column_name ∉ dfc.cols) :
    FileTools.get_excel_column_values fs p1 column_name sheet_name unique1 =
      Json.obj [("success", Json.bool false),
        ("error", Json.str ("Column \x27" ++ column_name ++ "\x27 not found")),
        ("available_columns", Json.arr (df.cols.map Json.str))] ∧
    FileTools.get_csv_column_values fs p2 column_name unique2 =
      Json.obj [("success", Json.bool false),
        ("error", Json.str ("Column \x27" ++ column_name ++ "\x27 not found")),
        ("available_columns", Json.arr (dfc.cols.map Json.str))] := by
  constructor
  · simp [FileTools.get_excel_column_values, FileTools.get_excel_column_values_core,
      hx, hcol, except_bind_ok, except_pure_eq]
  · simp [FileTools.get_csv_column_values, FileTools.get_csv_column_values_core,
      hc, hcol2, except_bind_ok, except_pure_eq]

/-- Witness for C5 at a concrete backend: the workbook t.xlsx and the table
t.csv both load, the column y is absent, and the envelopes list the actual
column x. -/
theorem C5_missing_column_witness :
    FileTools.get_excel_column_values fs0 "t.xlsx" "y" none false =
      Json.obj [("success", Json.bool false),
        ("error", Json.str ("Column \x27" ++ "y" ++ "\x27 not found")),
        ("available_columns", Json.arr (["x"].map Json.str))] ∧
    FileTools.get_csv_column_values fs0 "t.csv" "y" false =
      Json.obj [("success", Json.bool false),
        ("error", Json.str ("Column \x27" ++ "y" ++ "\x27 not found")),
        ("available_columns", Json.arr (["x"].map Json.str))] :=
  C5_missing_column fs0 "t.xlsx" "t.csv" "y" none false false
    "Sheet1" ⟨["x"], [[Cell.num 1], [Cell.num 2]]⟩ ⟨["x"], [[Cell.num 1]]⟩
    rfl (by simp) rfl (by simp)

/-- Claim C10: in every success envelope produced by the file tools, the
count field equals the length of the accompanying list: num_values for
get_excel_column_values, num_results for query_excel, and num_occurrences
for search_json. -/
theorem C10_count_fields :
    (∀ (fs : FileSystem) (p c : String) (sn : Option String) (u : Bool),
      (FileTools.get_excel_column_values fs p c sn u).getField "success" = some (Json.bool true) →
      ∃ vs, (FileTools.get_excel_column_values fs p c sn u).getField "values" = some (Json.arr vs) ∧
        (FileTools.get_excel_column_values fs p c sn u).getField "num_values" =
          some (Json.num (vs.length : Int))) ∧
    (∀ (fs : FileSystem) (p q : String) (sn : Option String),
      (FileTools.query_excel fs p q sn).getField "success" = some (Json.bool true) →
      ∃ rs, (FileTools.query_excel fs p q sn).getField "results" = some (Json.arr rs) ∧
        (FileTools.query_excel fs p q sn).getField "num_results" =
          some (Json.num (rs.length : Int))) ∧
    (∀ (fs : FileSystem) (p k : String),
      (FileTools.search_json fs p k).getField "success" = some (Json.bool true) →
      ∃ rs, (FileTools.search_json fs p k).getField "results" = some (Json.arr rs) ∧
        (FileTools.search_json fs p k).getField "num_occurrences" =
          some (Json.num (rs.length : Int))) := by
  refine ⟨?_, ?_, ?_⟩
  · intro fs p c sn u hsucc
    cases hx : resolveExcelSheet fs p sn with
    | error e =>
      rw [show FileTools.get_excel_column_values fs p c sn u = FileTools.errorEnvelope e p by
        simp [FileTools.get_excel_column_values, FileTools.get_excel_column_values_core,
          hx, except_bind_err]] at hsucc
      simp [FileTools.errorEnvelope, Json.getField] at hsucc
    | ok st =>
      by_cases hm : c ∈ st.2.cols
      · refine ⟨((if u then (st.2.colValues c).eraseDups else st.2.colValues c).map Cell.toJson),
          ?_, ?_⟩ <;>
        · rw [show FileTools.get_excel_column_values fs p c sn u =
            Json.obj [("success", Json.bool true), ("file_path", Json.str p),
              ("sheet_name", Json.str st.1), ("column_name", Json.str c),
              ("num_values", Json.num (((if u then (st.2.colValues c).eraseDups
                else st.2.colValues c)).length : Int)),
              ("values", Json.arr ((if u then (st.2.colValues c).eraseDups
                else st.2.colValues c).map Cell.toJson))] by
            simp [FileTools.get_excel_column_values, FileTools.get_excel_column_values_core,
              hx, hm, except_bind_ok, except_pure_eq]]
          simp [Json.getField]
      · rw [show FileTools.get_excel_column_values fs p c sn u =
          Json.obj [("success", Json.bool false),
            ("error", Json.str ("Column \x27" ++ c ++ "\x27 not found")),
            ("available_columns", Json.arr (st.2.cols.map Json.str))] by
          simp [FileTools.get_excel_column_values, FileTools.get_excel_column_values_core,
            hx, hm, except_bind_ok, except_pure_eq]] at hsucc
        simp [Json.getField] at hsucc
  · intro fs p q sn hsucc
    cases hx : resolveExcelSheet fs p sn with
    | error e =>
      rw [show FileTools.query_excel fs p q sn = Json.obj [("success", Json.bool false),
          ("error", Json.str e), ("file_path", Json.str p), ("query", Json.str q)] by
        simp [FileTools.query_excel, FileTools.query_excel_core, hx, except_bind_err]] at hsucc
      simp [Json.getField] at hsucc
    | ok st =>
      cases hq : fs.runQuery st.2 q with
      | error e =>
        rw [show FileTools.query_excel fs p q sn = Json.obj [("success", Json.bool false),
            ("error", Json.str e), ("file_path", Json.str p), ("query", Json.str q)] by
          simp [FileTools.query_excel, FileTools.query_excel_core, hx, hq,
            except_bind_ok, except_bind_err]] at hsucc
        simp [Json.getField] at hsucc
      | ok rdf =>
        refine ⟨rdf.rows.map (FileTools.recordOf rdf.cols), ?_, ?_⟩ <;>
        · rw [show FileTools.query_excel fs p q sn =
            Json.obj [("success", Json.bool true), ("file_path", Json.str p),
              ("sheet_name", Json.str st.1), ("query", Json.str q),
              ("num_results", Json.num (rdf.rows.length : Int)),
              ("results", Json.arr (rdf.rows.map (FileTools.recordOf rdf.cols)))] by
            simp [FileTools.query_excel, FileTools.query_excel_core, hx, hq,
              except_bind_ok, except_pure_eq]]
          simp [Json.getField]
  · intro fs p k hsucc
    cases hj : fs.jsonFile p with
    | error e =>
      rw [show FileTools.search_json fs p k = FileTools.errorEnvelope e p by
        simp [FileTools.search_json, hj]] at hsucc
      simp [FileTools.errorEnvelope, Json.getField] at hsucc
    | ok data =>
      refine ⟨(find_key k data "").map (fun pv =>
        Json.obj [("path", Json.str pv.1), ("value", pv.2)]), ?_, ?_⟩ <;>
      · rw [show FileTools.search_json fs p k =
          Json.obj [("success", Json.bool true), ("file_path", Json.str p),
            ("search_key", Json.str k),
            ("num_occurrences", Json.num ((find_key k data "").length : Int)),
            ("results", Json.arr ((find_key k data "").map (fun pv =>
              Json.obj [("path", Json.str pv.1), ("value", pv.2)])))] by
          simp [FileTools.search_json, hj]]
        simp [Json.getField]

/-- Witness for C10 at the concrete backend fs0: a successful column read, a
successful query and a successful search, each with matching count field. -/
theorem C10_count_fields_witness :
    (∃ vs, (FileTools.get_excel_column_values fs0 "t.xlsx" "x" none false).getField "values" =
        some (Json.arr vs) ∧
      (FileTools.get_excel_column_values fs0 "t.xlsx" "x" none false).getField "num_values" =
        some (Json.num (vs.length : Int))) ∧
    (∃ rs, (FileTools.query_excel fs0 "t.xlsx" "x > 0" none).getField "results" =
        some (Json.arr rs) ∧
      (FileTools.query_excel fs0 "t.xlsx" "x > 0" none).getField "num_results" =
        some (Json.num (rs.length : Int))) ∧
    (∃ rs, (FileTools.search_json fs0 "data.json" "key").getField "results" =
        some (Json.arr rs) ∧
      (FileTools.search_json fs0 "data.json" "key").getField "num_occurrences" =
        some (Json.num (rs.length : Int))) :=
  ⟨C10_count_fields.1 fs0 "t.xlsx" "x" none false rfl,
   C10_count_fields.2.1 fs0 "t.xlsx" "x > 0" none rfl,
   C10_count_fields.2.2 fs0 "data.json" "key" rfl⟩

/-- Claim C3: execute_function always returns a serialized result envelope
and never propagates an exception; for every name with no matching tool the
envelope is the success:false unknown-function envelope, and the conversation
loop continues to a further provider request rather than aborting. -/
theorem C3_execute_function_unknown (ft : FT) (files : List String) (name : String)
    (args : List (String × Json))
    (h1 : name ∉ LLMAgent.llmKnownNames) (h2 : name ∉ BedrockAgent.bedrockKnownNames) :
    LLMAgent.execute_function ft files name args =
      (Json.obj [("success", Json.bool false),
        ("error", Json.str ("Unknown function: " ++ name))]).dumps ∧
    BedrockAgent.execute_function ft files name args =
      (Json.obj [("success", Json.bool false),
        ("error", Json.str ("Unknown function: " ++ name))]).dumps ∧
    (∀ (name2 : String) (args2 : List (String × Json)), ∃ j : Json,
      LLMAgent.execute_function ft files name2 args2 = j.dumps) ∧
    (∀ (name2 : String) (args2 : List (String × Json)), ∃ j : Json,
      BedrockAgent.execute_function ft files name2 args2 = j.dumps) ∧
    (∀ (p : OProvider) (s : LLMAgentState) (n : Nat),
      ((p s.conversation_history true).tool_calls).isEmpty = false →
      2 ≤ (LLMAgent.chatLoop p (LLMAgent.execute_function ft files) s (n + 1)).2.2.length) := by
  simp only [LLMAgent.llmKnownNames, BedrockAgent.bedrockKnownNames, List.mem_cons,
    List.not_mem_nil, or_false, not_or] at h1 h2
  obtain ⟨n1, n2, n3, n4, n5, n6⟩ := h1
  obtain ⟨m1, m2, m3, m4⟩ := h2
  refine ⟨?_, ?_, ?_, ?_, ?_⟩
  · simp [LLMAgent.execute_function, LLMAgent.execute_function_core, n1, n2, n3, n4, n5, n6,
      except_pure_eq]
  · simp [BedrockAgent.execute_function, BedrockAgent.execute_function_core, m1, m2, m3, m4,
      except_pure_eq]
  · intro name2 args2
    cases hc : LLMAgent.execute_function_core ft files name2 args2 with
    | ok j => exact ⟨j, by simp [LLMAgent.execute_function, hc]⟩
    | error e => exact ⟨Json.obj [("success", Json.bool false), ("error", Json.str e)],
        by simp [LLMAgent.execute_function, hc]⟩
  · intro name2 args2
    cases hc : BedrockAgent.execute_function_core ft files name2 args2 with
    | ok j => exact ⟨j, by simp [BedrockAgent.execute_function, hc]⟩
    | error e => exact ⟨Json.obj [("success", Json.bool false), ("error", Json.str e)],
        by simp [BedrockAgent.execute_function, hc]⟩
  · intro p s n htool
    simp only [LLMAgent.chatLoop, htool, Bool.false_eq_true, if_false]
    have hne := llm_chatLoop_trace_ne_nil p (LLMAgent.execute_function ft files)
      (LLMAgent.toolStepState (LLMAgent.execute_function ft files) s (p s.conversation_history true)) n
    obtain ⟨a, as, hcons⟩ := List.exists_cons_of_ne_nil hne
    simp [hcons]

/-- Witness for C3: the unknown name frobnicate produces the serialized
unknown-function error envelope. -/
theorem C3_execute_function_unknown_witness :
    LLMAgent.execute_function ft0 [] "frobnicate" [] =
      (Json.obj [("success", Json.bool false),
        ("error", Json.str ("Unknown function: " ++ "frobnicate"))]).dumps :=
  (C3_execute_function_unknown ft0 [] "frobnicate" [] (by decide) (by decide)).1

/-- Counterexample to claim C7 as stated: an invocation of
list_available_files with a parameter that is not in its descriptor (whose
schema declares no parameters) is not rejected — both dispatchers ignore the
argument mapping entirely and return the success envelope. -/
theorem C7_counterexample :
    LLMAgent.execute_function ft0 ["report.xlsx"] "list_available_files"
        [("unexpected", Json.null)] =
      (Json.obj [("success", Json.bool true), ("files", Json.arr [Json.str "report.xlsx"]),
        ("num_files", Json.num 1)]).dumps ∧
    BedrockAgent.execute_function ft0 ["report.xlsx"] "list_available_files"
        [("unexpected", Json.null)] =
      (Json.obj [("success", Json.bool true), ("files", Json.arr [Json.str "report.xlsx"]),
        ("num_files", Json.num 1)]).dumps :=
  ⟨rfl, rfl⟩

/-- Claim C7 amended: for the FileTools operations reached by keyword
splatting, an argument mapping that fails Python keyword binding against the
function signature (which coincides with the descriptor parameter sets) is
turned into a success:false error envelope with the file operation never
invoked — the result is independent of the tool implementations; and keyword
binding does fail whenever a required parameter is missing or a parameter is
outside the signature. The list_available_files branch ignores its arguments
and performs no such rejection. -/
theorem C7_kwarg_binding :
    (∀ (name : String) (req opt : List String) (args : List (String × Json)) (e : String)
      (ft ft2 : FT) (files : List String),
      (name, req, opt) ∈ llmSignatures →
      bindKwargs name req opt args = Except.error e →
      LLMAgent.execute_function ft files name args =
        (Json.obj [("success", Json.bool false), ("error", Json.str e)]).dumps ∧
      LLMAgent.execute_function ft files name args =
        LLMAgent.execute_function ft2 files name args) ∧
    (∀ (name : String) (req opt : List String) (args : List (String × Json)) (e : String)
      (ft ft2 : FT) (files : List String),
      (name, req, opt) ∈ bedrockSignatures →
      bindKwargs name req opt args = Except.error e →
      BedrockAgent.execute_function ft files name args =
        (Json.obj [("success", Json.bool false), ("error", Json.str e)]).dumps ∧
      BedrockAgent.execute_function ft files name args =
        BedrockAgent.execute_function ft2 files name args) ∧
    (∀ (name : String) (req opt : List String) (args : List (String × Json)),
      ((∃ r ∈ req, ∀ pa ∈ args, pa.1 ≠ r) ∨ (∃ pa ∈ args, pa.1 ∉ req ∧ pa.1 ∉ opt)) →
      ∃ e, bindKwargs name req opt args = Except.error e) := by
  refine ⟨?_, ?_, ?_⟩
  · intro name req opt args e ft ft2 files hmem hbind
    simp only [llmSignatures, List.mem_cons, List.not_mem_nil, or_false, Prod.mk.injEq] at hmem
    rcases hmem with ⟨rfl, rfl, rfl⟩ | ⟨rfl, rfl, rfl⟩ | ⟨rfl, rfl, rfl⟩ | ⟨rfl, rfl, rfl⟩ |
        ⟨rfl, rfl, rfl⟩ <;>
      exact ⟨by simp [LLMAgent.execute_function, LLMAgent.execute_function_core, hbind,
          except_bind_err],
        by simp [LLMAgent.execute_function, LLMAgent.execute_function_core, hbind,
          except_bind_err]⟩
  · intro name req opt args e ft ft2 files hmem hbind
    simp only [bedrockSignatures, List.mem_cons, List.not_mem_nil, or_false, Prod.mk.injEq] at hmem
    rcases hmem with ⟨rfl, rfl, rfl⟩ | ⟨rfl, rfl, rfl⟩ | ⟨rfl, rfl, rfl⟩ <;>
      exact ⟨by simp [BedrockAgent.execute_function, BedrockAgent.execute_function_core, hbind,
          except_bind_err],
        by simp [BedrockAgent.execute_function, BedrockAgent.execute_function_core, hbind,
          except_bind_err]⟩
  · intro name req opt args hbad
    rcases hbad with ⟨r, hr, hmiss⟩ | ⟨pa, hpa, hnr, hno⟩
    · cases hfind : args.find? (fun q => !(req.contains q.1) && !(opt.contains q.1)) with
      | some q => exact ⟨_, by unfold bindKwargs; rw [hfind]⟩
      | none =>
        have hsome : (req.find? (fun r2 => args.all (fun q => q.1 != r2))).isSome := by
          apply List.find?_isSome.mpr
          refine ⟨r, hr, ?_⟩
          simp only [List.all_eq_true, bne_iff_ne, ne_eq, decide_eq_true_eq]
          intro q hq
          exact hmiss q hq
        obtain ⟨r2, hr2⟩ := Option.isSome_iff_exists.mp hsome
        exact ⟨_, by unfold bindKwargs; rw [hfind, hr2]⟩
    · have hsome : (args.find? (fun q => !(req.contains q.1) && !(opt.contains q.1))).isSome := by
        apply List.find?_isSome.mpr
        refine ⟨pa, hpa, ?_⟩
        simp [hnr, hno]
      obtain ⟨q, hq⟩ := Option.isSome_iff_exists.mp hsome
      exact ⟨_, by unfold bindKwargs; rw [hq]⟩

/-- Witness for C7 amended: calling read_excel with an empty argument mapping
misses the required file_path parameter and yields the error envelope. -/
theorem C7_kwarg_binding_witness :
    LLMAgent.execute_function ft0 [] "read_excel" [] =
      (Json.obj [("success", Json.bool false),
        ("error", Json.str ("read_excel() missing 1 required positional argument: \x27file_path\x27"))]).dumps :=
  (C7_kwarg_binding.1 "read_excel" ["file_path"] ["sheet_name", "max_rows"] []
    ("read_excel() missing 1 required positional argument: \x27file_path\x27") ft0 ft0 []
    (by decide) rfl).1

theorem pyOr_ne_empty (c : Option String) (d : String) (hd : d ≠ "") : pyOr c d ≠ "" := by
  cases c with
  | none => simpa [pyOr] using hd
  | some s =>
    by_cases hs : s = "" <;> simp [pyOr, hs, hd]

/-- Counterexample to claim C1 as stated: for the Bedrock agent under a
provider that always requests tools, with max_iterations 1, every provider
request (in particular the final one) is made with the tool configuration
attached — there is no tools-disabled final request — and the returned text
is the fixed continuation message, not text from a final call. -/
theorem C1_counterexample :
    (BedrockAgent.chat pToolB exec0 (bState []) "q" 1).2.2.map BCall.toolsEnabled = [true] ∧
    (BedrockAgent.chat pToolB exec0 (bState []) "q" 1).2.2.getLast?.map BCall.toolsEnabled =
      some true ∧
    (BedrockAgent.chat pToolB exec0 (bState []) "q" 1).1 =
      "I\x27ve made multiple tool calls but need to continue. Please ask your question again or rephrase it." :=
  ⟨rfl, rfl, rfl⟩

/-- Claim C1 amended: under a provider that returns tool-call requests on
every call, LLMAgent.chat makes exactly max_iterations + 1 provider requests,
the final one with tool schemas disabled, and returns non-empty text — the
final text under the Python or-fallback, never empty; BedrockAgent.chat
instead makes exactly max_iterations provider requests, all with the tool
configuration attached, and returns the fixed non-empty continuation
message. -/
theorem C1_round_bound (pO : OProvider) (exec : String → List (String × Json) → String)
    (s : LLMAgentState) (user : String) (n : Nat)
    (hO : ∀ hist, ((pO hist true).tool_calls).isEmpty = false)
    (pB : BProvider) (execB : String → List (String × Json) → String)
    (sB : BedrockAgentState) (userB : String) (m : Nat)
    (hB : ∀ msgs sys, (pB msgs sys).stopReason = "tool_use") :
    ((LLMAgent.chat pO exec s user n).2.2.length = n + 1 ∧
      (∃ hist, (LLMAgent.chat pO exec s user n).2.2.getLast? = some ⟨hist, false⟩ ∧
        (LLMAgent.chat pO exec s user n).1 =
          pyOr (pO hist false).content
            "I\x27ve analyzed the data but couldn\x27t formulate a final answer.") ∧
      (LLMAgent.chat pO exec s user n).1 ≠ "") ∧
    ((BedrockAgent.chat pB execB sB userB m).2.2.length = m ∧
      (∀ c ∈ (BedrockAgent.chat pB execB sB userB m).2.2, c.toolsEnabled = true) ∧
      (BedrockAgent.chat pB execB sB userB m).1 =
        "I\x27ve made multiple tool calls but need to continue. Please ask your question again or rephrase it." ∧
      (BedrockAgent.chat pB execB sB userB m).1 ≠ "") := by
  have hchat : LLMAgent.chat pO exec s user n =
      LLMAgent.chatLoop pO exec (LLMAgent.seedState s user) n := rfl
  have hchatB : BedrockAgent.chat pB execB sB userB m =
      BedrockAgent.chatLoop pB execB
        (if sB.conversation_history.isEmpty then some (dopplerSystemPrompt sB.available_files)
          else none)
        [⟨Role.user, [BBlock.text userB]⟩] sB m := rfl
  obtain ⟨hist, h1, h2, h3⟩ := llm_chatLoop_always_tools pO exec hO n (LLMAgent.seedState s user)
  have hBmain := b_chatLoop_always_tools pB execB
    (if sB.conversation_history.isEmpty then some (dopplerSystemPrompt sB.available_files)
      else none) hB m [⟨Role.user, [BBlock.text userB]⟩] sB
  refine ⟨⟨?_, ⟨hist, ?_, ?_⟩, ?_⟩, ?_, ?_, ?_, ?_⟩
  · rw [hchat]; exact h1
  · rw [hchat]; exact h2
  · rw [hchat]; exact h3
  · rw [hchat, h3]
    exact pyOr_ne_empty _ _ (by decide)
  · rw [hchatB]; exact hBmain.1
  · rw [hchatB]
    intro c hc
    exact (b_chatLoop_calls pB execB _ m _ sB c hc).2
  · rw [hchatB]; exact hBmain.2
  · rw [hchatB, hBmain.2]
    decide

/-- Witness for C1 amended: one round with the always-tool providers gives
two OpenAI requests and one Bedrock request. -/
theorem C1_round_bound_witness :
    (LLMAgent.chat pToolO exec0 llmState0 "q" 1).2.2.length = 1 + 1 ∧
    (BedrockAgent.chat pToolB exec0 (bState ["f"]) "q" 1).2.2.length = 1 :=
  ⟨(C1_round_bound pToolO exec0 llmState0 "q" 1 (fun _ => rfl) pToolB exec0 (bState ["f"]) "q" 1
      (fun _ _ => rfl)).1.1,
   (C1_round_bound pToolO exec0 llmState0 "q" 1 (fun _ => rfl) pToolB exec0 (bState ["f"]) "q" 1
      (fun _ _ => rfl)).2.1⟩

theorem b_chatLoop_tool_use_trace (p : BProvider) (e : String → List (String × Json) → String)
    (sys : Option String) (msgs : List BMsg) (s : BedrockAgentState) (k : Nat)
    (h : (p msgs sys).stopReason = "tool_use") :
    (BedrockAgent.chatLoop p e sys msgs s (k + 1)).2.2 =
      ⟨msgs, sys, true⟩ :: (BedrockAgent.chatLoop p e sys
        (msgs ++ [(p msgs sys).message] ++
          [⟨Role.user, BedrockAgent.toolResultsOf e (p msgs sys).message.content⟩])
        (BedrockAgent.trackUsage s (p msgs sys).usage) k).2.2 := by
  simp only [BedrockAgent.chatLoop, h]
  simp

/-- Counterexample to claim C2 as stated: for the Bedrock agent, an assistant
turn carrying N = 2 tool calls is answered before the next provider request
by a transcript of 3 turns — user question, assistant turn, and a SINGLE
combined user turn holding both toolResult entries — not by 2 separate
tool-result turns. -/
theorem C2_counterexample :
    ((BedrockAgent.chat pTwoB exec0 (bState []) "q" 2).2.2.map
        (fun c => c.messages.length)) = [1, 3] ∧
    ((BedrockAgent.chat pTwoB exec0 (bState []) "q" 2).2.2.map BCall.messages) =
      [[⟨Role.user, [BBlock.text "q"]⟩],
       [⟨Role.user, [BBlock.text "q"]⟩,
        ⟨Role.assistant, [BBlock.toolUse "id1" "read_excel" [],
          BBlock.toolUse "id2" "query_excel" []]⟩,
        ⟨Role.user, [BBlock.toolResult "id1" "r", BBlock.toolResult "id2" "r"]⟩]] :=
  ⟨rfl, rfl⟩

/-- Claim C2 amended: when an assistant turn carries N tool calls, the OpenAI
agent appends, after the assistant turn and before the next provider request,
exactly N tool-result turns — one per call, each carrying that call\x27s
invocation id, in emission order; the Bedrock agent appends one user turn
carrying exactly N toolResult entries, one per toolUse block, with the
toolUseIds in emission order, before the next provider request. -/
theorem C2_tool_results (pO : OProvider) (exec : String → List (String × Json) → String)
    (s : LLMAgentState) (n : Nat)
    (htc : ((pO s.conversation_history true).tool_calls).isEmpty = false)
    (pB : BProvider) (execB : String → List (String × Json) → String) (sys : Option String)
    (msgs : List BMsg) (sB : BedrockAgentState) (m : Nat)
    (hB : (pB msgs sys).stopReason = "tool_use") :
    ((((LLMAgent.chatLoop pO exec s (n + 1)).2.2.map ChatCall.messages).take 2 =
      [s.conversation_history,
        s.conversation_history ++ [LLMAgent.assistantMsgOf (pO s.conversation_history true)] ++
          LLMAgent.toolResultMsgs exec (pO s.conversation_history true).tool_calls]) ∧
      ((LLMAgent.toolResultMsgs exec (pO s.conversation_history true).tool_calls).length =
        (pO s.conversation_history true).tool_calls.length) ∧
      (∀ i : Nat,
        ((LLMAgent.toolResultMsgs exec (pO s.conversation_history true).tool_calls)[i]?).map
            Msg.tool_call_id =
          (((pO s.conversation_history true).tool_calls)[i]?).map (fun tc => some tc.id))) ∧
    ((((BedrockAgent.chatLoop pB execB sys msgs sB (m + 2)).2.2.map BCall.messages).take 2 =
      [msgs, msgs ++ [(pB msgs sys).message] ++
        [⟨Role.user, BedrockAgent.toolResultsOf execB (pB msgs sys).message.content⟩]]) ∧
      ((BedrockAgent.toolResultsOf execB (pB msgs sys).message.content).length =
        (BedrockAgent.toolUses (pB msgs sys).message.content).length) ∧
      (∀ i : Nat,
        ((BedrockAgent.toolResultsOf execB (pB msgs sys).message.content)[i]?).map
            (fun b => match b with
              | BBlock.toolResult id _ => some id
              | _ => none) =
          ((BedrockAgent.toolUses (pB msgs sys).message.content)[i]?).map
            (fun t => some t.1))) := by
  refine ⟨⟨?_, ?_, ?_⟩, ?_, ?_, ?_⟩
  · simp only [LLMAgent.chatLoop, htc, Bool.false_eq_true, if_false]
    have hhead := llm_chatLoop_trace_head pO exec
      (LLMAgent.toolStepState exec s (pO s.conversation_history true)) n
    cases hT : (LLMAgent.chatLoop pO exec
        (LLMAgent.toolStepState exec s (pO s.conversation_history true)) n).2.2 with
    | nil => rw [hT] at hhead; simp at hhead
    | cons t0 ts =>
      rw [hT] at hhead
      simp only [List.head?_cons] at hhead
      have ht0 : t0.messages =
          (LLMAgent.toolStepState exec s (pO s.conversation_history true)).conversation_history := by
        simpa using hhead
      simp [ht0, llm_toolStepState_history]
  · simp [LLMAgent.toolResultMsgs]
  · intro i
    cases h : ((pO s.conversation_history true).tool_calls)[i]? with
    | none => simp [LLMAgent.toolResultMsgs, List.getElem?_map, h]
    | some tc => simp [LLMAgent.toolResultMsgs, List.getElem?_map, h]
  · rw [b_chatLoop_tool_use_trace pB execB sys msgs sB (m + 1) hB]
    have hhead := b_chatLoop_trace_head pB execB sys
      (msgs ++ [(pB msgs sys).message] ++
        [⟨Role.user, BedrockAgent.toolResultsOf execB (pB msgs sys).message.content⟩])
      (BedrockAgent.trackUsage sB (pB msgs sys).usage) m
    cases hT : (BedrockAgent.chatLoop pB execB sys
        (msgs ++ [(pB msgs sys).message] ++
          [⟨Role.user, BedrockAgent.toolResultsOf execB (pB msgs sys).message.content⟩])
        (BedrockAgent.trackUsage sB (pB msgs sys).usage) (m + 1)).2.2 with
    | nil => rw [hT] at hhead; simp at hhead
    | cons t0 ts =>
      rw [hT] at hhead
      simp only [List.head?_cons] at hhead
      have ht0 := Option.some.inj hhead
      simp [ht0]
  · rw [toolResultsOf_eq_map]
    simp
  · intro i
    rw [toolResultsOf_eq_map]
    cases h : (BedrockAgent.toolUses (pB msgs sys).message.content)[i]? with
    | none => simp [List.getElem?_map, h]
    | some t => simp [List.getElem?_map, h]

/-- Witness for C2 amended: with the always-tool providers, the tool-result
list has the same length as the tool-call list in both variants. -/
theorem C2_tool_results_witness :
    (LLMAgent.toolResultMsgs exec0 (pToolO llmState0.conversation_history true).tool_calls).length =
      (pToolO llmState0.conversation_history true).tool_calls.length ∧
    (BedrockAgent.toolResultsOf exec0 (pToolB [] none).message.content).length =
      (BedrockAgent.toolUses (pToolB [] none).message.content).length :=
  ⟨(C2_tool_results pToolO exec0 llmState0 0 rfl pToolB exec0 none [] (bState []) 0 rfl).1.2.1,
   (C2_tool_results pToolO exec0 llmState0 0 rfl pToolB exec0 none [] (bState []) 0 rfl).2.2.1⟩

theorem llm_seedState_ne_nil (s : LLMAgentState) (u : String)
    (h : s.conversation_history ≠ []) :
    (LLMAgent.seedState s u).conversation_history = s.conversation_history ++ [mkUserMsg u] := by
  simp [LLMAgent.seedState, List.isEmpty_iff, h]

theorem llm_seedState_nil (s : LLMAgentState) (u : String)
    (h : s.conversation_history = []) :
    (LLMAgent.seedState s u).conversation_history =
      [⟨Role.system, some (dopplerSystemPrompt s.available_files), [], none⟩, mkUserMsg u] := by
  simp [LLMAgent.seedState, h]

/-- Counterexample to claim C8 as stated: for the Bedrock agent, after a
first completed turn under the binding [a], calling set_available_files [bb]
changes the preamble passed on the very next provider request — the request
carries a preamble freshly built from the new binding, with no conversation
reset in between — so the preamble is neither built at most once nor stable
under rebinding. -/
theorem C8_counterexample :
    ((BedrockAgent.chat pEndB exec0
        (BedrockAgent.set_available_files
          (BedrockAgent.chat pEndB exec0 (bState ["a"]) "q1" 10).2.1 ["bb"])
        "q2" 10).2.2.map BCall.system) = [some (dopplerSystemPrompt ["bb"])] ∧
    dopplerSystemPrompt ["bb"] ≠ dopplerSystemPrompt ["a"] := by
  constructor
  · rfl
  · decide

/-- Claim C8 amended: the OpenAI agent builds the preamble once, on the first
user turn — with a transcript headed by a preamble built from an earlier
binding, set_available_files changes the head of no subsequent provider
request of the conversation, and the new binding is used only after
reset_conversation; the Bedrock agent instead keeps its stored history empty
forever and rebuilds the preamble from the current binding on every chat
call, so a new binding takes effect on the next call without any reset. -/
theorem C8_preamble (p : OProvider) (e : String → List (String × Json) → String)
    (s : LLMAgentState) (files0 files1 : List String) (u : String) (n : Nat)
    (hne : s.conversation_history ≠ [])
    (hhead : s.conversation_history.head? =
      some ⟨Role.system, some (dopplerSystemPrompt files0), [], none⟩)
    (pB : BProvider) (eB : String → List (String × Json) → String)
    (sB : BedrockAgentState) (files2 : List String) (uB : String) (m : Nat)
    (hBhist : sB.conversation_history = []) :
    (∀ c ∈ (LLMAgent.chat p e (LLMAgent.set_available_files s files1) u n).2.2,
      c.messages.head? = some ⟨Role.system, some (dopplerSystemPrompt files0), [], none⟩) ∧
    (∀ c ∈ (LLMAgent.chat p e
        (LLMAgent.reset_conversation (LLMAgent.set_available_files s files1)) u n).2.2,
      c.messages.head? = some ⟨Role.system, some (dopplerSystemPrompt files1), [], none⟩) ∧
    (∀ c ∈ (BedrockAgent.chat pB eB (BedrockAgent.set_available_files sB files2) uB m).2.2,
      c.system = some (dopplerSystemPrompt files2)) ∧
    (BedrockAgent.chat pB eB (BedrockAgent.set_available_files sB files2)
      uB m).2.1.conversation_history = [] := by
  obtain ⟨h0, hs, hcons⟩ := List.exists_cons_of_ne_nil hne
  have hh0 : h0 = ⟨Role.system, some (dopplerSystemPrompt files0), [], none⟩ := by
    rw [hcons] at hhead
    simpa using hhead
  have hchatB : BedrockAgent.chat pB eB (BedrockAgent.set_available_files sB files2) uB m =
      BedrockAgent.chatLoop pB eB
        (if (BedrockAgent.set_available_files sB files2).conversation_history.isEmpty then
          some (dopplerSystemPrompt
            (BedrockAgent.set_available_files sB files2).available_files)
        else none)
        [⟨Role.user, [BBlock.text uB]⟩] (BedrockAgent.set_available_files sB files2) m := rfl
  have hsys : (if (BedrockAgent.set_available_files sB files2).conversation_history.isEmpty then
      some (dopplerSystemPrompt (BedrockAgent.set_available_files sB files2).available_files)
    else none) = some (dopplerSystemPrompt files2) := by
    simp [BedrockAgent.set_available_files, hBhist]
  refine ⟨?_, ?_, ?_, ?_⟩
  · intro c hc
    obtain ⟨ext, hext⟩ := llm_chatLoop_trace_prefix p e n
      (LLMAgent.seedState (LLMAgent.set_available_files s files1) u) c hc
    have hseed : (LLMAgent.seedState (LLMAgent.set_available_files s files1) u).conversation_history
        = s.conversation_history ++ [mkUserMsg u] :=
      llm_seedState_ne_nil (LLMAgent.set_available_files s files1) u hne
    rw [hext, hseed, hcons, hh0]
    simp
  · intro c hc
    obtain ⟨ext, hext⟩ := llm_chatLoop_trace_prefix p e n
      (LLMAgent.seedState (LLMAgent.reset_conversation (LLMAgent.set_available_files s files1)) u)
      c hc
    rw [hext, llm_seedState_nil _ _ rfl]
    simp [LLMAgent.reset_conversation, LLMAgent.set_available_files]
  · intro c hc
    rw [hchatB, hsys] at hc
    exact (b_chatLoop_calls pB eB (some (dopplerSystemPrompt files2)) m
      [⟨Role.user, [BBlock.text uB]⟩] (BedrockAgent.set_available_files sB files2) c hc).1
  · rw [hchatB, b_chatLoop_state_history]
    simpa [BedrockAgent.set_available_files] using hBhist

/-- Witness for C8 amended: a Bedrock chat after rebinding leaves the stored
conversation history empty. -/
theorem C8_preamble_witness :
    (BedrockAgent.chat pEndB exec0 (BedrockAgent.set_available_files (bState ["a"]) ["bb"])
      "q" 3).2.1.conversation_history = [] :=
  (C8_preamble pToolO exec0
    ⟨[⟨Role.system, some (dopplerSystemPrompt ["a"]), [], none⟩], ["a"], 0, 0, 0⟩
    ["a"] ["b"] "q" 1 (by simp) rfl
    pEndB exec0 (bState ["a"]) ["bb"] "q" 3 rfl).2.2.2
